import Mathlib

/-
  Verification of `utils/ledger_api.py` (ledger-web).

  Shallow embedding: the Entry model (posting construction, currency
  normalization, canonical rendering), the Journal append/revert protocol
  over an explicit file-content state, and the entry-iteration parser.
  Files are modelled as `String` (the journal content is ASCII in every
  scenario considered, so character offsets coincide with byte offsets).
-/

namespace LedgerApi

/-! ### Python string primitives -/

/-- ASCII fragment of Python's `str` whitespace (`\s`, `str.strip`):
space, tab, newline, carriage return, vertical tab, form feed. -/
def isPySpace (c : Char) : Bool :=
  c = ' ' || c = '\t' || c = '\n' || c = '\r' || c = '\x0b' || c = '\x0c'

/-- Python `str.rstrip()`: drop trailing whitespace. -/
def rstrip (s : String) : String :=
  ⟨(s.data.reverse.dropWhile isPySpace).reverse⟩

/-- Python `str.strip()`: drop leading and trailing whitespace. -/
def pyStrip (s : String) : String :=
  ⟨((s.data.dropWhile isPySpace).reverse.dropWhile isPySpace).reverse⟩

/-- Python format `"{:<Ns}"`: left-justify to width `w` with spaces
(no truncation of longer strings). -/
def ljust (s : String) (w : Nat) : String :=
  s ++ ⟨List.replicate (w - s.data.length) ' '⟩

/-- Python format `"{:>N}"`: right-justify to width `w` with spaces. -/
def rjust (s : String) (w : Nat) : String :=
  ⟨List.replicate (w - s.data.length) ' '⟩ ++ s

/-- Split file content into the lines a Python text-file iterator yields,
with their trailing `"\n"` removed (the callers immediately `strip` each
line, so dropping the terminator here is equivalent).  A final segment not
terminated by `"\n"` is still a line; a trailing `"\n"` does not create an
extra empty line. -/
def fileLinesGo : List Char → List Char → List String
  | [], cur => if cur = [] then [] else [⟨cur.reverse⟩]
  | '\n' :: rest, cur => ⟨cur.reverse⟩ :: fileLinesGo rest []
  | c :: rest, cur => fileLinesGo rest (c :: cur)

def fileLines (s : String) : List String :=
  fileLinesGo s.data []

/-- Python `str.splitlines()` on `"\n"`-separated text (the note strings
rendered here contain no other line terminators). -/
def pySplitlines (s : String) : List String :=
  fileLines s

/-- Python `str.partition(" ")` restricted to the pieces the code uses:
the text before the first space and the text after it (the whole string
and `""` when there is no space). -/
def breakOnSpace : List Char → List Char × Option (List Char)
  | [] => ([], none)
  | ' ' :: rest => ([], some rest)
  | c :: rest =>
    let p := breakOnSpace rest
    (c :: p.1, p.2)

def partitionSpace (s : String) : String × String :=
  match breakOnSpace s.data with
  | (a, none) => (⟨a⟩, "")
  | (a, some b) => (⟨a⟩, ⟨b⟩)

/-! ### Amount formatting: `"{:.2f}".format(float(s))` -/

def breakOnDot : List Char → List Char × Option (List Char)
  | [] => ([], none)
  | '.' :: rest => ([], some rest)
  | c :: rest =>
    let p := breakOnDot rest
    (c :: p.1, p.2)

def digitsVal (l : List Char) : Nat :=
  l.foldl (fun a c => 10 * a + (c.toNat - 48)) 0

/-- Value in hundredths of Python `float(s)` for plain decimal literals
(optional sign, digits, optional point, at most two fraction digits) —
the exactly-representable fragment this journal's formatting exercises.
Any other string is a parse failure, as `float` raising `ValueError`. -/
def parseCents (s : String) : Option Int :=
  let p : Bool × List Char :=
    match s.data with
    | '-' :: rest => (true, rest)
    | '+' :: rest => (false, rest)
    | cs => (false, cs)
  let neg := p.1
  let q := breakOnDot p.2
  let w := q.1
  let ok : Bool :=
    w.all Char.isDigit &&
      (match q.2 with
       | none => !w.isEmpty
       | some f => f.all Char.isDigit && f.length ≤ 2 && (!w.isEmpty || !f.isEmpty))
  if ok then
    let frac : Nat :=
      match q.2 with
      | none => 0
      | some f => digitsVal f * 10 ^ (2 - f.length)
    let mag : Nat := 100 * digitsVal w + frac
    some (if neg then -(mag : Int) else (mag : Int))
  else none

def pad2 (n : Nat) : String :=
  if n < 10 then "0" ++ toString n else toString n

def formatCents (c : Int) : String :=
  let sign := if c < 0 then "-" else ""
  let m := c.natAbs
  sign ++ toString (m / 100) ++ "." ++ pad2 (m % 100)

/-- Model of `"{:.2f}".format(float(s))`: `none` means `float` raised
`ValueError` (the spec's `InvalidAmount`). -/
def pyFloatFormat2 (s : String) : Option String :=
  (parseCents s).map formatCents

/-! ### Entry model -/

/-- The `EntryAccount` namedtuple. -/
structure EntryAccount where
  name : String
  amount : Option String
  currency : Option String
deriving DecidableEq, Repr

/-- One value of the `currency_conversions` table (`{symbol, position}`). -/
structure CurrencyRule where
  symbol : String
  position : String
deriving DecidableEq, Repr

/-- The class-level dict `Entry.currency_conversions`, as its `dict.get`
lookup function. -/
def currencyConversions (c : String) : Option CurrencyRule :=
  if c = "USD" then some { symbol := "$", position := "left" }
  else if c = "$" then some { symbol := "$", position := "left" }
  else if c = "" then some { symbol := "", position := "left" }
  else none

/-- `Entry.normalize_currency`: `dict.get(currency, "")` then a truthiness
test — every stored rule is a nonempty dict (truthy), the `""` default is
falsy, so a hit is returned as-is and a miss maps the token to itself with
position `right`. -/
def normalizeCurrency (currency : String) : CurrencyRule :=
  match currencyConversions currency with
  | some rule => rule
  | none => { symbol := currency, position := "right" }

/-- `normalize_currency` as `__str__` applies it to `account.currency`:
Python `None` is not a key of the table, so it takes the default branch,
and the template would print `None` for the symbol.  (This branch is only
reachable for a posting with an amount but `None` currency, which the
constructor never produces from the documented forms.) -/
def normalizeCurrencyOpt : Option String → CurrencyRule
  | some c => normalizeCurrency c
  | none => { symbol := "None", position := "right" }

/-- The three shorthand posting forms accepted by `Entry.__init__`
(tuple-arity dispatch via the try/except ladder). -/
inductive AccountSpec where
  | form1 (name : String) (amount : Option String) (currency : Option String)
  | form2 (name : String) (amountCurrency : String)
  | form3 (name : String)
deriving DecidableEq, Repr

/-- `float()` raising `ValueError` on a bad amount token
(the spec's `InvalidAmount`). -/
inductive BuildError where
  | valueError
deriving DecidableEq, Repr

/-- The per-account body of `Entry.__init__`: arity dispatch, splitting a
merged `"amount currency"` token on the first space, reformatting a present
amount via `"{:.2f}".format(float(amount))`, and forcing `currency = None`
whenever the amount is absent. -/
def buildAccount : AccountSpec → Except BuildError EntryAccount
  | .form1 name amount currency =>
    match amount with
    | none => .ok { name := name, amount := none, currency := none }
    | some a =>
      match pyFloatFormat2 a with
      | some a2 => .ok { name := name, amount := some a2, currency := currency }
      | none => .error .valueError
  | .form2 name amountCurrency =>
    let p := partitionSpace amountCurrency
    match pyFloatFormat2 p.1 with
    | some a2 => .ok { name := name, amount := some a2, currency := some p.2 }
    | none => .error .valueError
  | .form3 name => .ok { name := name, amount := none, currency := none }

/-- A constructed `Entry`. -/
structure Entry where
  payee : String
  date : String
  note : Option String
  accounts : List EntryAccount
deriving DecidableEq, Repr

/-- One posting line of `Entry.__str__`: no amount gives the bare indented
name; otherwise the currency rule selects the template
`"    {account:<34s}  {amount:>12}"` (symbol prefixed to the amount) or
`"    {account:<34s}  {amount:>12} {currency}"`. -/
def renderAccount (a : EntryAccount) : String :=
  match a.amount with
  | none => "    " ++ a.name
  | some amt =>
    let cur := normalizeCurrencyOpt a.currency
    if cur.position = "left" then
      "    " ++ ljust a.name 34 ++ "  " ++ rjust (cur.symbol ++ amt) 12
    else
      "    " ++ ljust a.name 34 ++ "  " ++ rjust amt 12 ++ " " ++ cur.symbol

/-- `Entry.__str__`: a leading blank line, the `<date> <payee>` header,
one `    ; <line>` per note line when the note is truthy, then the posting
lines, joined with `"\n"`. -/
def Entry.render (e : Entry) : String :=
  let noteLines :=
    match e.note with
    | none => []
    | some n => if n = "" then [] else (pySplitlines n).map (fun l => "    ; " ++ l)
  String.intercalate "\n"
    ("" :: (e.date ++ " " ++ e.payee) :: (noteLines ++ e.accounts.map renderAccount))

/-! ### Journal: append / revert over explicit file content -/

/-- The `LastData` record `{last_entry, old_position, new_position}`
(the undo window the caller passes to `Journal.__init__`). -/
structure LastData where
  last_entry : Entry
  old_position : Nat
  new_position : Nat
deriving DecidableEq

/-- The state of one `Journal`: the current content of the file at
`self.path` plus `self.last_data`. -/
structure JState where
  file : String
  last_data : Option LastData
deriving DecidableEq

/-- `f.seek(0, 2)` / `tell()` on a file opened in append mode:
the end-of-file offset. -/
def fileEnd (s : String) : Nat := s.data.length

/-- `f.seek(pos)` then `f.read()`: the content from `pos` to the end. -/
def readFrom (s : String) (pos : Nat) : String := ⟨s.data.drop pos⟩

/-- `f.truncate(pos)`: keep the content before `pos`. -/
def truncateAt (s : String) (pos : Nat) : String := ⟨s.data.take pos⟩

/-- `print(entry, file=f)` on a file opened with mode `"a"`: the rendered
text plus a newline goes at the end of the file. -/
def printTo (file text : String) : String := file ++ text ++ "\n"

/-- `Journal.can_revert`: false with no recorded `last_data`; false when
the current end of file moved away from `new_position`; false when the
right-stripped content at `old_position..end` differs from the recorded
entry's rendering; true otherwise. -/
def can_revert (j : JState) : Bool :=
  match j.last_data with
  | none => false
  | some ld =>
    if fileEnd j.file ≠ ld.new_position then false
    else if ld.last_entry.render ≠ rstrip (readFrom j.file ld.old_position) then false
    else true

inductive RevertError where
  | cannotRevert
deriving DecidableEq

/-- `Journal.revert`: raises `CannotRevert` with no recorded `last_data`,
or when `new_position` differs from the current end of file, or when the
right-stripped content at `old_position..end` differs from the recorded
entry's rendering; otherwise truncates the file at `old_position`.
`last_data` itself is left as it was.  Every failing branch returns before
the `truncate` call, so an error performs no write. -/
def revert (j : JState) : Except RevertError JState :=
  match j.last_data with
  | none => .error .cannotRevert
  | some ld =>
    if ld.new_position ≠ fileEnd j.file then .error .cannotRevert
    else if rstrip (readFrom j.file ld.old_position) ≠ ld.last_entry.render then
      .error .cannotRevert
    else .ok { j with file := truncateAt j.file ld.old_position }

/-- The file content after `revert`, also on the error path (where the
code performed no write). -/
def revertFile (j : JState) : String :=
  match revert j with
  | .ok t => t.file
  | .error _ => j.file

/-- `Journal.append`: open the file with mode `"a"` and `print` the
entry into it.  Nothing else happens — in particular `self.last_data`
is not assigned. -/
def Journal.append (j : JState) (e : Entry) : JState :=
  { j with file := printTo j.file e.render }

/-- A journal over the file produced by appending `e` to an empty file,
constructed with the `last_data` argument of `Journal.__init__` recording
that append (entry `e`, old end-of-file `0`, new end-of-file): the undo
record is supplied by the caller at construction, the only place the code
ever sets it. -/
def appendedState (e : Entry) : JState :=
  { file := (Journal.append { file := "", last_data := none } e).file,
    last_data := some
      { last_entry := e, old_position := 0,
        new_position := fileEnd (Journal.append { file := "", last_data := none } e).file } }

/-! ### Journal: external engine queries -/

/-- Captured result of one child-process run. -/
structure ProcResult where
  returncode : Int
  stdout : String
  stderr : String

/-- `subprocess.CalledProcessError` with its captured standard error. -/
structure CalledProcessError where
  stderr : String

/-- `Journal.LedgerCliError`, raised bare but chained (`raise ... from e`)
to the `CalledProcessError` carrying the process's standard error. -/
structure LedgerCliError where
  cause : CalledProcessError

/-- `Journal._call`: run `ledger -f <path> <args...>`; a non-zero exit
becomes a `LedgerCliError` chained to the `CalledProcessError`, otherwise
the raw standard output is returned.  The engine is an oracle mapping the
full argument vector to a process result. -/
def Journal.call (engine : List String → ProcResult) (path : String)
    (args : List String) : Except LedgerCliError String :=
  let r := engine (["ledger", "-f", path] ++ args)
  if r.returncode ≠ 0 then .error ⟨⟨r.stderr⟩⟩ else .ok r.stdout

/-- Body of the method `Journal.accounts`. -/
def Journal.accountsBody (engine : List String → ProcResult) (path : String) :
    Except LedgerCliError String :=
  Journal.call engine path ["accounts"]

/-- Body of the method `Journal.payees`. -/
def Journal.payeesBody (engine : List String → ProcResult) (path : String) :
    Except LedgerCliError String :=
  Journal.call engine path ["payees"]

/-- Body of the method `Journal.currencies` (subcommand `commodities`). -/
def Journal.currenciesBody (engine : List String → ProcResult) (path : String) :
    Except LedgerCliError String :=
  Journal.call engine path ["commodities"]

/-- The names `Journal.__init__` binds in the instance `__dict__`
(`self.path`, `self.last_data`, and the three `set()` attributes filled
by `_parse`). -/
def journalInstanceAttrNames : List String :=
  ["path", "last_data", "accounts", "payees", "currencies"]

/-- The plain functions defined in `class Journal` (non-data descriptors). -/
def journalClassMethodNames : List String :=
  ["can_revert", "revert", "append", "accounts", "payees", "currencies"]

/-- CPython attribute lookup on a constructed `Journal`: an entry in the
instance `__dict__` shadows a class function of the same name, and none of
the values `__init__` stores (a path string, the undo record, three sets)
is callable.  `j.<name>()` therefore calls a function only when this
resolution yields the class function. -/
def journalAttrIsCallableMethod (name : String) : Bool :=
  !journalInstanceAttrNames.contains name && journalClassMethodNames.contains name

/-! ### Journal: entry iteration -/

/-- Does a ten-character list match the date alternation
`\d{4}-\d{2}-\d{2}|\d{4}/\d{2}/\d{2}`? -/
def matchDate10 : List Char → Bool
  | [a, b, c, d, s1, e, f, s2, g, h] =>
    a.isDigit && b.isDigit && c.isDigit && d.isDigit &&
    e.isDigit && f.isDigit && g.isDigit && h.isDigit &&
    ((s1 = '-' && s2 = '-') || (s1 = '/' && s2 = '/'))
  | _ => false

/-- `re.match` of the header pattern
`(<date>)(?: [!*])?\s+(.*)` against a (stripped, newline-free) line:
ten date characters, then the optional cleared marker — taken greedily but
given back when no whitespace can follow it — then at least one whitespace
character consumed greedily, the rest becoming the payee group.  Returns
the `(date, payee)` groups, or `none` when the pattern fails. -/
def matchHeader (line : String) : Option (String × String) :=
  let cs := line.data
  let d := cs.take 10
  if matchDate10 d then
    let rest := cs.drop 10
    let afterCleared :=
      match rest with
      | ' ' :: m :: rs =>
        if (m = '!' || m = '*') &&
            (match rs with | c :: _ => isPySpace c | [] => false) then rs
        else rest
      | _ => rest
    match afterCleared with
    | c :: _ =>
      if isPySpace c then some (⟨d⟩, ⟨afterCleared.dropWhile isPySpace⟩)
      else none
    | [] => none
  else none

/-- `re.fullmatch("\s*;\s*(.*)", line)` on a newline-free line:
optional whitespace, a semicolon, optional whitespace, the rest captured. -/
def matchNote (line : String) : Option String :=
  match line.data.dropWhile isPySpace with
  | ';' :: rest => some ⟨rest.dropWhile isPySpace⟩
  | _ => none

/-- One item yielded by `Journal.__iter__`. -/
structure ParsedEntry where
  body : String
  date : String
  payee : String
  note : String
deriving DecidableEq, Repr

/-- The uncaught exceptions `prepare_entry` can raise: `match.group` on
`None` when the header pattern fails, and `entry_lines[1]` on a
single-line block. -/
inductive IterError where
  | attributeError
  | indexError
deriving DecidableEq, Repr

/-- `prepare_entry`: match the header pattern against `entry_lines[0]`
(`None` makes the following `.group` calls raise `AttributeError`), then
full-match the note pattern against `entry_lines[1]` — indexed
unconditionally, so a one-line block raises `IndexError` — an unmatched
note line giving the empty-string note. -/
def prepare_entry (entryLines : List String) : Except IterError ParsedEntry :=
  match entryLines with
  | [] => .error .indexError
  | l0 :: rest =>
    match matchHeader l0 with
    | none => .error .attributeError
    | some dp =>
      match rest with
      | [] => .error .indexError
      | l1 :: _ =>
        let note :=
          match matchNote l1 with
          | some n => n
          | none => ""
        .ok { body := String.intercalate "\n" entryLines,
              date := dp.1, payee := dp.2, note := note }

/-- The loop of `Journal.__iter__` over the stripped lines: non-blank
lines accumulate into the current block; a blank line with a nonempty
block yields `prepare_entry` of it (an exception there escapes the
generator, keeping the items already yielded); the loop ends at end of
file without flushing a still-accumulating block. -/
def iterLines : List String → List String → List ParsedEntry →
    List ParsedEntry × Option IterError
  | [], _entry, acc => (acc.reverse, none)
  | l :: ls, entry, acc =>
    let s := pyStrip l
    if s ≠ "" then iterLines ls (entry ++ [s]) acc
    else if entry ≠ [] then
      match prepare_entry entry with
      | .ok item => iterLines ls [] (item :: acc)
      | .error e => (acc.reverse, some e)
    else iterLines ls [] acc

/-- `Journal.__iter__` on a file with the given content: the sequence of
yielded items, paired with the exception that escaped the generator, when
one did. -/
def journalIter (file : String) : List ParsedEntry × Option IterError :=
  iterLines (fileLines file) [] []

/-! ### Concrete fixtures -/

/-- A concrete entry: the `McDonald's`-style doctest shape with one
amount-bearing posting and one bare posting. -/
def entryA : Entry where
  payee := "Shop"
  date := "2019-01-01"
  note := none
  accounts := [⟨"Expenses:Food", some "5.00", some "USD"⟩,
               ⟨"Liabilities:Credit Card", none, none⟩]

/-- Two entries, each a header line plus one note line, separated by a
blank line; the file ends right after the second note line's newline. -/
def file7 : String := "2019-01-01 Shop\n    ; milk\n\n2019-01-02 Cafe\n    ; tea\n"

/-- The same two entries with a blank line after the second one. -/
def file7b : String := file7 ++ "\n"

def item7a : ParsedEntry :=
  { body := "2019-01-01 Shop\n; milk", date := "2019-01-01",
    payee := "Shop", note := "milk" }

def item7b : ParsedEntry :=
  { body := "2019-01-02 Cafe\n; tea", date := "2019-01-02",
    payee := "Cafe", note := "tea" }

/-- A well-formed block, then a block whose first line matches no header
pattern, then another well-formed block. -/
def file8 : String :=
  "2019-01-01 A\n    ; x\n\nBADLINE\n    ; y\n\n2019-01-02 B\n    ; z\n\n"

def item8a : ParsedEntry :=
  { body := "2019-01-01 A\n; x", date := "2019-01-01", payee := "A", note := "x" }

/-- The posting line the C5 claim asserts: four spaces, the padded name,
then the combined field right-aligned to twelve characters with no
separating gap. -/
def claimedLineC5 (name : String) : String :=
  "    " ++ ljust name 34 ++ rjust "$5.00" 12

/-! ### Supporting lemmas -/

theorem dataAppend (s t : String) : (s ++ t).data = s.data ++ t.data := by
  cases s; cases t; rfl

theorem mkData (s : String) : (⟨s.data⟩ : String) = s := by
  cases s; rfl

theorem nilAppend (s : String) : "" ++ s = s := by
  cases s; rfl

theorem rstripAppendNewline (s : String) : rstrip (s ++ "\n") = rstrip s := by
  have h : ("\n" : String).data = ['\n'] := rfl
  unfold rstrip
  rw [dataAppend, h, List.reverse_append]
  simp [List.dropWhile, isPySpace]

theorem canRevertSome (f : String) (ld : LastData) :
    can_revert { file := f, last_data := some ld } =
      if fileEnd f ≠ ld.new_position then false
      else if ld.last_entry.render ≠ rstrip (readFrom f ld.old_position) then false
      else true := rfl

theorem revertSome (f : String) (ld : LastData) :
    revert { file := f, last_data := some ld } =
      if ld.new_position ≠ fileEnd f then .error .cannotRevert
      else if rstrip (readFrom f ld.old_position) ≠ ld.last_entry.render then
        .error .cannotRevert
      else .ok { file := truncateAt f ld.old_position, last_data := some ld } := rfl

theorem dataNeNil (s : String) (h : s ≠ "") : s.data ≠ [] := by
  intro hd
  apply h
  cases s with
  | mk l => cases hd; rfl

/-! ### Claim theorems -/

/-- C1, counterexample: appending `entryA` to an empty journal does not
set `last_data` — it stays `none`, not the `{entry, oldOffset, newOffset}`
record the claim asserts. -/
theorem c1_counterexample :
    (Journal.append { file := "", last_data := none } entryA).last_data = none ∧
    (Journal.append { file := "", last_data := none } entryA).file =
      entryA.render ++ "\n" := by
  constructor
  · rfl
  · show ("" ++ entryA.render) ++ "\n" = entryA.render ++ "\n"
    rw [nilAppend]

/-- C1, amended: `append` opens the file for appending and writes the
entry's canonical rendering followed by a newline at the previous end of
file, leaving the earlier content and `last_data` unchanged; the undo
record is not set by `append` (it is only ever supplied to the
constructor). -/
theorem c1_amended (j : JState) (e : Entry) :
    (Journal.append j e).file = j.file ++ e.render ++ "\n" ∧
    (Journal.append j e).last_data = j.last_data ∧
    readFrom (Journal.append j e).file (fileEnd j.file) = e.render ++ "\n" ∧
    truncateAt (Journal.append j e).file (fileEnd j.file) = j.file := by
  refine ⟨rfl, rfl, ?_, ?_⟩
  · show (⟨((j.file ++ e.render) ++ "\n").data.drop j.file.data.length⟩ : String) =
      e.render ++ "\n"
    rw [dataAppend, dataAppend, List.append_assoc, List.drop_left,
      ← dataAppend, mkData]
  · show (⟨((j.file ++ e.render) ++ "\n").data.take j.file.data.length⟩ : String) = j.file
    rw [dataAppend, dataAppend, List.append_assoc, List.take_left, mkData]

/-- C2, counterexample: on an empty journal, immediately after
`append(entryA)`, `can_revert()` is false (no `last_data` was recorded),
not true as the claim states. -/
theorem c2_counterexample :
    can_revert (Journal.append { file := "", last_data := none } entryA) = false := rfl

/-- C2, amended: for a journal over the file produced by appending `e` to
an empty file, whose undo record was supplied at construction as
`{e, 0, end-of-file}` (the only way the code ever acquires one), and whose
entry rendering carries no trailing whitespace: `can_revert()` is true,
`revert()` succeeds and leaves the file byte-identical to its content
before the append (empty), and a second `revert()` with no intervening
append fails with `CannotRevert`. -/
theorem c2_amended (e : Entry) (h : rstrip e.render = e.render) :
    can_revert (appendedState e) = true ∧
    revert (appendedState e) = .ok { appendedState e with file := "" } ∧
    revert { appendedState e with file := "" } = .error .cannotRevert ∧
    can_revert { appendedState e with file := "" } = false := by
  have hfile : (appendedState e).file = e.render ++ "\n" := by
    show ("" ++ e.render) ++ "\n" = e.render ++ "\n"
    rw [nilAppend]
  have hread : readFrom (appendedState e).file 0 = (appendedState e).file := by
    show (⟨(appendedState e).file.data.drop 0⟩ : String) = _
    rw [List.drop_zero, mkData]
  have hstrip : rstrip (readFrom (appendedState e).file 0) = e.render := by
    rw [hread, hfile, rstripAppendNewline, h]
  have hlen : fileEnd (appendedState e).file ≠ 0 := by
    rw [hfile]
    show (e.render ++ "\n").data.length ≠ 0
    rw [dataAppend]
    simp
  refine ⟨?_, ?_, ?_, ?_⟩
  · rw [show appendedState e =
      { file := (appendedState e).file,
        last_data := some ⟨e, 0, fileEnd (appendedState e).file⟩ } from rfl,
      canRevertSome]
    simp [hstrip]
  · rw [show appendedState e =
      { file := (appendedState e).file,
        last_data := some ⟨e, 0, fileEnd (appendedState e).file⟩ } from rfl,
      revertSome]
    simp only [ne_eq, not_true_eq_false, if_false, hstrip, if_neg]
    have htrunc : truncateAt (appendedState e).file 0 = "" := by
      show (⟨(appendedState e).file.data.take 0⟩ : String) = ""
      rw [List.take_zero]
    simp [htrunc]
  · rw [show ({ appendedState e with file := "" } : JState) =
      { file := "", last_data := some ⟨e, 0, fileEnd (appendedState e).file⟩ } from rfl,
      revertSome]
    rw [if_pos]
    show fileEnd (appendedState e).file ≠ fileEnd ""
    exact hlen
  · rw [show ({ appendedState e with file := "" } : JState) =
      { file := "", last_data := some ⟨e, 0, fileEnd (appendedState e).file⟩ } from rfl,
      canRevertSome]
    rw [if_pos]
    show fileEnd "" ≠ fileEnd (appendedState e).file
    exact fun hh => hlen hh.symm

/-- C2, witness at `entryA`. -/
theorem c2_amended_witness :
    rstrip entryA.render = entryA.render ∧
    (can_revert (appendedState entryA) = true ∧
     revert (appendedState entryA) = .ok { appendedState entryA with file := "" } ∧
     revert { appendedState entryA with file := "" } = .error .cannotRevert ∧
     can_revert { appendedState entryA with file := "" } = false) :=
  ⟨by decide, c2_amended entryA (by decide)⟩

/-- C3: with a recorded undo window whose `new_position` is the end of
file as of the append, externally appending any nonempty string makes
`can_revert()` false and `revert()` fail with `CannotRevert`, and the
failing `revert()` leaves the file content unchanged. -/
theorem c3_tamper (ld : LastData) (f extra : String)
    (hnew : ld.new_position = fileEnd f) (hex : extra ≠ "") :
    can_revert { file := f ++ extra, last_data := some ld } = false ∧
    revert { file := f ++ extra, last_data := some ld } = .error .cannotRevert ∧
    revertFile { file := f ++ extra, last_data := some ld } = f ++ extra := by
  have hlen : fileEnd (f ++ extra) ≠ ld.new_position := by
    rw [hnew]
    show (f ++ extra).data.length ≠ f.data.length
    rw [dataAppend, List.length_append]
    have hpos : 0 < extra.data.length :=
      List.length_pos.mpr (dataNeNil extra hex)
    omega
  have hrev : revert { file := f ++ extra, last_data := some ld } =
      .error .cannotRevert := by
    rw [revertSome, if_pos (fun hh => hlen hh.symm)]
  refine ⟨?_, hrev, ?_⟩
  · rw [canRevertSome, if_pos hlen]
  · unfold revertFile
    rw [hrev]

/-- C3, witness: a five-byte file with one tampering byte appended. -/
theorem c3_tamper_witness :
    can_revert { file := "abcde" ++ "x",
                 last_data := some ⟨entryA, 0, 5⟩ } = false ∧
    revert { file := "abcde" ++ "x",
             last_data := some ⟨entryA, 0, 5⟩ } = .error .cannotRevert ∧
    revertFile { file := "abcde" ++ "x",
                 last_data := some ⟨entryA, 0, 5⟩ } = "abcde" ++ "x" :=
  c3_tamper ⟨entryA, 0, 5⟩ "abcde" "x" (by decide) (by decide)

/-- C4, counterexample: `normalize_currency("")` returns
`{symbol: "", position: left}` — the table's `""` row stores the empty
symbol, not `"$"` as the claim states. -/
theorem c4_counterexample :
    normalizeCurrency "" ≠ { symbol := "$", position := "left" } ∧
    normalizeCurrency "" = { symbol := "", position := "left" } := by decide

/-- C4, amended: `normalize_currency` maps `"USD"` and `"$"` to
`{symbol: "$", position: left}`, the empty string to
`{symbol: "", position: left}`, and every other token `t` to
`{symbol: t, position: right}`. -/
theorem c4_amended (t : String) :
    normalizeCurrency t =
      if t = "USD" ∨ t = "$" then { symbol := "$", position := "left" }
      else if t = "" then { symbol := "", position := "left" }
      else { symbol := t, position := "right" } := by
  unfold normalizeCurrency currencyConversions
  by_cases h1 : t = "USD"
  · subst h1; simp
  by_cases h2 : t = "$"
  · subst h2; simp
  by_cases h3 : t = ""
  · subst h3; simp
  · simp [h1, h2, h3]

/-- C5, counterexample: for the account name `Expenses:Food`, the rendered
posting line is not the claim's literal — the template puts two spaces
between the 34-character name field and the 12-character amount field,
which the claim omits. -/
theorem c5_counterexample :
    buildAccount (.form2 "Expenses:Food" "5 USD") =
      .ok { name := "Expenses:Food", amount := some "5.00",
            currency := some "USD" } ∧
    renderAccount { name := "Expenses:Food", amount := some "5.00",
                    currency := some "USD" } ≠
      claimedLineC5 "Expenses:Food" := ⟨rfl, by decide⟩

/-- C5, amended: for every account name, the form-2 shorthand
`(name, "5 USD")` builds the same posting as the form-1
`(name, "5.00", "USD")`, and the rendered line is four spaces, the name
left-padded to 34 characters, two separating spaces, then `$5.00`
right-aligned in a 12-character field (symbol on the left, two
decimals). -/
theorem c5_amended (name : String) :
    buildAccount (.form2 name "5 USD") =
      buildAccount (.form1 name (some "5.00") (some "USD")) ∧
    buildAccount (.form2 name "5 USD") =
      .ok { name := name, amount := some "5.00", currency := some "USD" } ∧
    (buildAccount (.form2 name "5 USD")).map renderAccount =
      .ok ("    " ++ ljust name 34 ++ "  " ++ rjust "$5.00" 12) := by
  exact ⟨rfl, rfl, rfl⟩

/-- C6: a posting built with no amount — the bare form-3 `(name,)` or a
form-1 with an absent amount and any supplied currency — stores no
currency, and renders as exactly four spaces followed by the account
name. -/
theorem c6_no_currency (n : String) (c : Option String) :
    buildAccount (.form3 n) =
      .ok { name := n, amount := none, currency := none } ∧
    buildAccount (.form1 n none c) =
      .ok { name := n, amount := none, currency := none } ∧
    (buildAccount (.form3 n)).map renderAccount = .ok ("    " ++ n) :=
  ⟨rfl, rfl, rfl⟩

/-- C7, counterexample: `file7` contains two entries separated by a blank
line, each a header line plus one note line, but iteration yields exactly
one item — the final block is never flushed because no blank line follows
it before end of file. -/
theorem c7_counterexample :
    journalIter file7 = ([item7a], none) ∧
    (journalIter file7).1.length ≠ 2 := by decide

/-- C7, amended: when a blank line also follows the second entry, the two
blocks both yield items with the date, payee and note of their header and
note lines; a final block not followed by a blank line is silently
dropped. -/
theorem c7_amended :
    journalIter file7b = ([item7a, item7b], none) := by decide

/-- C8, counterexample: in `file8` a well-formed block precedes and
another follows the malformed block, yet iteration yields only the one
item before it and then raises `AttributeError` (from `match.group` on
`None`) — there is no `MalformedEntry` report, no skip, and the
well-formed block after the bad one is lost. -/
theorem c8_counterexample :
    (journalIter file8).1.length = 1 ∧
    (journalIter file8).2 = some .attributeError := by decide

/-- C8, amended: a block whose first line matches no header pattern makes
the generator raise an untyped `AttributeError` that aborts iteration:
well-formed blocks before it were already yielded, well-formed blocks
after it are not. -/
theorem c8_amended :
    journalIter file8 = ([item8a], some .attributeError) := by decide

/-- C9: `__init__` stores `self.accounts`, `self.payees` and
`self.currencies` as plain sets, which shadow the class functions of the
same names in CPython attribute lookup, so `j.accounts()`, `j.payees()`
and `j.currencies()` on a constructed journal call a non-callable set —
a `TypeError` — instead of invoking the external engine, even though the
(now unreachable) class functions with those names exist. -/
theorem c9_query_methods_shadowed :
    journalAttrIsCallableMethod "accounts" = false ∧
    journalAttrIsCallableMethod "payees" = false ∧
    journalAttrIsCallableMethod "currencies" = false ∧
    journalClassMethodNames.contains "accounts" = true ∧
    journalClassMethodNames.contains "payees" = true ∧
    journalClassMethodNames.contains "currencies" = true ∧
    journalInstanceAttrNames.contains "accounts" = true ∧
    journalInstanceAttrNames.contains "payees" = true ∧
    journalInstanceAttrNames.contains "currencies" = true ∧
    journalAttrIsCallableMethod "revert" = true := by decide

/-- C10: a block of exactly one line whose line matches the header
pattern is parsed by `prepare_entry` into an `IndexError` — the code
indexes `entry_lines[1]` unconditionally — rather than an item or any
`MalformedEntry`. -/
theorem c10_singleton_block (l : String) (h : (matchHeader l).isSome = true) :
    prepare_entry [l] = .error .indexError := by
  have hred : prepare_entry [l] =
      (match matchHeader l with
       | none => Except.error IterError.attributeError
       | some _ => Except.error IterError.indexError) := rfl
  rw [hred]
  cases hm : matchHeader l with
  | none => rw [hm] at h; simp at h
  | some dp => rfl

/-- C10, witness: the single-line block `2019-01-01 Shop`, and a whole
file holding just that block, where iteration raises `IndexError` before
yielding anything. -/
theorem c10_singleton_block_witness :
    (matchHeader "2019-01-01 Shop").isSome = true ∧
    prepare_entry ["2019-01-01 Shop"] = .error .indexError ∧
    journalIter "2019-01-01 Shop\n\n" = ([], some .indexError) :=
  ⟨by decide, c10_singleton_block "2019-01-01 Shop" (by decide), by decide⟩

end LedgerApi
